import Mathlib

/-!
Verification of the spectator beatmap-download script (`src/main.py`),
a shallow embedding in Lean 4.

Time is modelled as rationals (seconds since an arbitrary epoch); `datetime.now()`
becomes an explicit `now : ℚ` argument at each point the source reads the clock.
HTTP responses are explicit inputs; cooperative (asyncio) scheduling is modelled by
interleaving atomic steps, where a step is a maximal await-free block of the source.
-/

namespace Spectator

/-- Models `httpx.Response.raise_for_status`: it returns normally exactly on a
2xx status and raises otherwise. -/
def is2xx (status : ℕ) : Bool :=
  decide (200 ≤ status ∧ status < 300)

/-- Models the `Authorization` dataclass (`main.py` lines 18-21). -/
structure Authorization where
  api_token : String
  api_token_expiry : ℚ
deriving DecidableEq, Repr

/-- Models the `Ratelimit` dataclass (`main.py` lines 24-27). -/
structure Ratelimit where
  requests_per_period : ℕ
  period_length : ℚ
deriving DecidableEq, Repr

/-- Models the `RatelimitTracker` dataclass fields (`main.py` lines 30-34). -/
structure RatelimitTracker where
  rate_limit : Ratelimit
  period_start : ℚ
  requests_made_in_period : ℕ
deriving DecidableEq, Repr

/-- Models `RatelimitTracker.seconds_until_reset` (`main.py` lines 36-40). -/
def RatelimitTracker.seconds_until_reset (t : RatelimitTracker) (now : ℚ) : ℚ :=
  t.period_start + t.rate_limit.period_length - now

/-- Models `RatelimitTracker.hit_rate_limit` (`main.py` lines 42-46). -/
def RatelimitTracker.hit_rate_limit (t : RatelimitTracker) (now : ℚ) : Bool :=
  if t.seconds_until_reset now ≤ 0 then false
  else decide (t.rate_limit.requests_per_period ≤ t.requests_made_in_period)

/-- Models `RatelimitTracker.record_request` (`main.py` lines 48-49). -/
def RatelimitTracker.record_request (t : RatelimitTracker) : RatelimitTracker :=
  { t with requests_made_in_period := t.requests_made_in_period + 1 }

/-- Models `OSU_API_V2_RATE_LIMIT` (`main.py` lines 52-56). -/
def OSU_API_V2_RATE_LIMIT : Ratelimit :=
  { requests_per_period := 500, period_length := 60 }

/-- Models the tracker constructed by the gateway when the global tracker is
`None` (`main.py` lines 113-117): fresh window starting now with a zero count. -/
def freshTracker (now : ℚ) : RatelimitTracker :=
  { rate_limit := OSU_API_V2_RATE_LIMIT, period_start := now
    requests_made_in_period := 0 }

/-- Models `is_expired` (`main.py` lines 63-65): expired when the stored expiry
is less than 20 seconds in the future. -/
def is_expired (a : Authorization) (now : ℚ) : Bool :=
  decide (a.api_token_expiry - now < 20)

/-- Models the JSON body returned by the token-exchange endpoint together with
its HTTP status (`main.py` lines 94-110): `response.json()["access_token"]` and
`response.json()["expires_in"]`. -/
structure TokenResponse where
  status : ℕ
  access_token : String
  expires_in : ℚ
deriving DecidableEq, Repr

/-- Models the critical section under `auth_lock` (`main.py` lines 88-110).
`auth` is the global `authorization` on entry; `tCheck` is the clock when
`is_expired` reads it (line 65) and `tResp` the clock when the token-exchange
response is turned into an expiry (line 108). Returns whether the exchange POST
was issued, and either the authorization the call proceeds with (`Except.ok`) or
the status `raise_for_status` raised on (`Except.error`). The global
`authorization` after the section is `some a` in the ok case and `none` in the
error case (line 91 clears an expired token before the failing exchange). -/
def authSection (auth : Option Authorization) (tCheck tResp : ℚ)
    (exch : TokenResponse) : Bool × Except ℕ Authorization :=
  let auth1 : Option Authorization :=
    match auth with
    | some a => if is_expired a tCheck then none else some a
    | none => none
  match auth1 with
  | some a => (false, Except.ok a)
  | none =>
      if is2xx exch.status then
        (true, Except.ok
          { api_token := exch.access_token
            api_token_expiry := tResp + exch.expires_in })
      else (true, Except.error exch.status)

/-- The global `authorization` variable after the `auth_lock` section, as a
function of the section's outcome. -/
def authAfter (outcome : Except ℕ Authorization) : Option Authorization :=
  match outcome with
  | Except.ok a => some a
  | Except.error _ => none

/-- Result of the rate-limiting block (`main.py` lines 112-125): the new global
tracker, whether `record_request` ran, and whether the call slept out the
period (the saturated branch). -/
structure RateLimitOutcome where
  tracker : Option RatelimitTracker
  recorded : Bool
  waited : Bool
deriving DecidableEq, Repr

/-- Models the rate-limiting block of the gateway (`main.py` lines 112-125): a
`None` tracker is replaced by a fresh window; a saturated window is slept out
and discarded; an elapsed window is discarded; otherwise the request is
recorded. -/
def rateLimitSection (tracker : Option RatelimitTracker) (now : ℚ) :
    RateLimitOutcome :=
  let t := tracker.getD (freshTracker now)
  if t.hit_rate_limit now then
    { tracker := none, recorded := false, waited := true }
  else if t.seconds_until_reset now ≤ 0 then
    { tracker := none, recorded := false, waited := false }
  else
    { tracker := some t.record_request, recorded := true, waited := false }

/-- Observable HTTP/bookkeeping events of one gateway call, in program order. -/
inductive GwEvent where
  | tokenExchangeReq : GwEvent
  | recordRequest : GwEvent
  | apiRequest : String → GwEvent
deriving DecidableEq, Repr

/-- Models the final scoring-API response (`main.py` lines 127-136): its status
and its parsed JSON body (kept opaque as a string). -/
structure ApiResponse where
  status : ℕ
  body : String
deriving DecidableEq, Repr

/-- State and observations of one complete `make_osu_api_v2_request` call. -/
structure GatewayResult where
  authorization : Option Authorization
  rate_limit_tracker : Option RatelimitTracker
  events : List GwEvent
  result : Except ℕ String
deriving Repr

/-- Models one sequential execution of `make_osu_api_v2_request`
(`main.py` lines 71-136). `auth` and `tracker` are the globals on entry;
`tCheck`, `tResp` and `tRate` are the clock readings at the expiry check, the
token-exchange response, and the rate-limit block; `exch` and `api` are the two
possible HTTP responses. A token-exchange failure propagates before the rate
limiter and the API request are ever reached. -/
def make_osu_api_v2_request (auth : Option Authorization)
    (tracker : Option RatelimitTracker) (tCheck tResp tRate : ℚ)
    (exch : TokenResponse) (api : ApiResponse) : GatewayResult :=
  match authSection auth tCheck tResp exch with
  | (exchanged, Except.error s) =>
      { authorization := none, rate_limit_tracker := tracker
        events := if exchanged then [GwEvent.tokenExchangeReq] else []
        result := Except.error s }
  | (exchanged, Except.ok a) =>
      let ro := rateLimitSection tracker tRate
      { authorization := some a
        rate_limit_tracker := ro.tracker
        events :=
          (if exchanged then [GwEvent.tokenExchangeReq] else []) ++
            (if ro.recorded then [GwEvent.recordRequest] else []) ++
            [GwEvent.apiRequest a.api_token]
        result :=
          if is2xx api.status then Except.ok api.body
          else Except.error api.status }

/-- One gateway caller's pass through the `auth_lock` critical section: the
clock readings of its expiry check and of its token-exchange response (if it
performs one), and the exchange response it would receive. -/
structure AuthTask where
  tCheck : ℚ
  tResp : ℚ
  exch : TokenResponse
deriving DecidableEq, Repr

/-- Models `asyncio.Lock` mutual exclusion on `auth_lock` (`main.py` line 68):
concurrent callers' critical sections execute serially in some order, each
seeing the global `authorization` the previous holder left behind. Returns the
final global `authorization` and how many token-exchange POSTs were issued. -/
def runAuthTasks : Option Authorization → List AuthTask → Option Authorization × ℕ
  | auth, [] => (auth, 0)
  | auth, task :: rest =>
      let step := authSection auth task.tCheck task.tResp task.exch
      let next := runAuthTasks (authAfter step.2) rest
      (next.1, (if step.1 then 1 else 0) + next.2)

/-- Rate-limiter tracker states reachable through the gateway: the initial
`None` global (`main.py` line 60), the state left by a full pass of the
rate-limiting block at some clock reading, and the `None` left when a saturated
caller's post-sleep discard (`main.py` line 121) clobbers the tracker after
other tasks interleaved during its sleep. -/
inductive ReachableTracker : Option RatelimitTracker → Prop where
  | init : ReachableTracker none
  | step (st : Option RatelimitTracker) (now : ℚ) :
      ReachableTracker st → ReachableTracker (rateLimitSection st now).tracker
  | discard (st : Option RatelimitTracker) :
      ReachableTracker st → ReachableTracker none

/-- Models `score["beatmap"]` as consumed by `should_download`
(`main.py` lines 186-198). -/
structure Beatmap where
  mode : String
  difficulty_rating : ℚ
  ar : ℚ
deriving DecidableEq, Repr

/-- Models `score["beatmapset"]` as consumed by the script: only its `id`. -/
structure Beatmapset where
  id : ℤ
deriving DecidableEq, Repr

/-- Models a recent-score record as consumed by the script. -/
structure Score where
  beatmap : Beatmap
  beatmapset : Beatmapset
deriving DecidableEq, Repr

/-- Models an inclusive numeric range from the per-account configuration
(`hosts.py`): `{"min": ..., "max": ...}`. -/
structure RangeFilter where
  min : ℚ
  max : ℚ
deriving DecidableEq, Repr

/-- Models one per-account configuration entry (`hosts.py`). -/
structure Config where
  username : String
  game_mode : String
  star_rating : RangeFilter
  approach_rate : RangeFilter
deriving DecidableEq, Repr

/-- Models `should_download` (`main.py` lines 186-200): mode match, inclusive
star-rating and approach-rate ranges, and the beatmapset id not already in the
global `downloaded_beatmapsets` list. -/
def should_download (score : Score) (config : Config)
    (downloaded_beatmapsets : List ℤ) : Bool :=
  score.beatmap.mode == config.game_mode
    && decide (config.star_rating.min ≤ score.beatmap.difficulty_rating)
    && decide (score.beatmap.difficulty_rating ≤ config.star_rating.max)
    && decide (config.approach_rate.min ≤ score.beatmap.ar)
    && decide (score.beatmap.ar ≤ config.approach_rate.max)
    && !(downloaded_beatmapsets.contains score.beatmapset.id)

/-- The pure filter part of `should_download`: the three per-score conditions
that do not depend on the mutable downloaded set. -/
def matchesFilter (score : Score) (config : Config) : Bool :=
  score.beatmap.mode == config.game_mode
    && decide (config.star_rating.min ≤ score.beatmap.difficulty_rating)
    && decide (score.beatmap.difficulty_rating ≤ config.star_rating.max)
    && decide (config.approach_rate.min ≤ score.beatmap.ar)
    && decide (score.beatmap.ar ≤ config.approach_rate.max)

/-- Models one iteration of the dispatch loop in `download_user_maps`
(`main.py` lines 206-210), which runs with no suspension point: if
`should_download` accepts, the download task for the id is dispatched and the
id is immediately appended to `downloaded_beatmapsets`. The state is the pair
(downloaded ids, ids for which a download task has been created). -/
def processScore (state : List ℤ × List ℤ) (score : Score) (config : Config) :
    List ℤ × List ℤ :=
  if should_download score config state.1 then
    (state.1 ++ [score.beatmapset.id], state.2 ++ [score.beatmapset.id])
  else state

/-- An arbitrary interleaving of the per-score dispatch iterations of any
number of accounts, as the sequence of (score, that account's config) steps in
the order the single-threaded event loop executed them. -/
def runDispatch (steps : List (Score × Config)) (state : List ℤ × List ℤ) :
    List ℤ × List ℤ :=
  match steps with
  | [] => state
  | p :: rest => runDispatch rest (processScore state p.1 p.2)

/-- Models the mirror's response to one beatmapset download. -/
structure MirrorResponse where
  status : ℕ
  content : String
deriving DecidableEq, Repr

/-- A file written to the `beatmapsets` output directory. -/
structure FileWrite where
  path : String
  content : String
deriving DecidableEq, Repr

/-- Models `download_map` (`main.py` lines 156-166): a 2xx mirror response is
written to `beatmapsets/<id>.osz`; a non-2xx response raises. The function
neither reads nor writes `downloaded_beatmapsets`, as its signature shows. -/
def download_map (beatmapset_id : ℤ) (resp : MirrorResponse) :
    Except ℕ FileWrite :=
  if is2xx resp.status then
    Except.ok
      { path := "beatmapsets/" ++ toString beatmapset_id ++ ".osz"
        content := resp.content }
  else Except.error resp.status

/-- Models Python `str.removesuffix`: when the suffix is non-empty and the
string ends with it, the suffix is removed, otherwise the string is returned
unchanged. Characterwise on the underlying character lists. -/
def removesuffix (s suffix : String) : String :=
  if suffix.data ≠ [] ∧ suffix.data.isSuffixOf s.data then
    String.mk (s.data.take (s.data.length - suffix.data.length))
  else s

/-- The ASCII whitespace Python strips around an `int()` literal. -/
def pyWhitespace (c : Char) : Bool :=
  c = ' ' || c = '\t' || c = '\n' || c = '\r' || c = '\x0b' || c = '\x0c'

/-- Strips `pyWhitespace` from both ends of a character list. -/
def trimChars (cs : List Char) : List Char :=
  ((cs.dropWhile pyWhitespace).reverse.dropWhile pyWhitespace).reverse

/-- Helper for `pyInt`: checks that a character list is a run of decimal
digits, possibly separated by single underscores (no leading, trailing or
doubled underscore), as Python's base-10 `int()` grammar demands. The Boolean
argument records whether the previous character was a digit. -/
def pyDigitsAux : List Char → Bool → Bool
  | [], prevDigit => prevDigit
  | c :: rest, prevDigit =>
      if c.isDigit then pyDigitsAux rest true
      else if c = '_' then prevDigit && pyDigitsAux rest false
      else false

/-- Helper for `pyInt`: the numeric value of a digit run, skipping
underscores. -/
def pyDigitsVal (cs : List Char) : ℕ :=
  cs.foldl (fun n c => if c = '_' then n else 10 * n + (c.toNat - 48)) 0

/-- Models Python `int(s)` for base 10 (restricted to ASCII): surrounding
whitespace is stripped, an optional single `+`/`-` sign is allowed, and the
rest must be a non-empty digit run with single underscores only between
digits; anything else raises `ValueError`, modelled as `none`. -/
def pyInt (s : String) : Option ℤ :=
  match trimChars s.data with
  | '+' :: rest =>
      if pyDigitsAux rest false then some (pyDigitsVal rest : ℤ) else none
  | '-' :: rest =>
      if pyDigitsAux rest false then some (-(pyDigitsVal rest : ℤ)) else none
  | cs => if pyDigitsAux cs false then some (pyDigitsVal cs : ℤ) else none

/-- Models `get_currently_downloaded_beatmapsets` (`main.py` lines 215-216):
the comprehension `[int(path.removesuffix(".osz")) for path in listdir]` over
the output directory listing, evaluated element by element; the first entry
whose conversion raises aborts the whole comprehension (`none`). -/
def get_currently_downloaded_beatmapsets (listing : List String) :
    Option (List ℤ) :=
  match listing with
  | [] => some []
  | path :: rest =>
      match pyInt (removesuffix path ".osz"),
          get_currently_downloaded_beatmapsets rest with
      | some i, some is => some (i :: is)
      | _, _ => none

/-- Observable events of `main` (`main.py` lines 219-243), in program order. -/
inductive MainEvent where
  | seedDedup : List ℤ → MainEvent
  | createHttpClient : MainEvent
  | networkRequest : String → MainEvent
deriving DecidableEq, Repr

/-- Whether a `main` event performs network activity. -/
def MainEvent.isNetwork : MainEvent → Bool
  | MainEvent.networkRequest _ => true
  | _ => false

/-- Models the event trace of `main` (`main.py` lines 219-243): seed the
deduplication set from the directory listing, create the HTTP client, resolve
every configured username over the network, then run every account's
score-fetch-and-download phase over the network. A seeding failure aborts the
run before any further event. -/
def mainTrace (listing : List String) (configs : List Config) :
    List MainEvent :=
  match get_currently_downloaded_beatmapsets listing with
  | none => []
  | some ids =>
      MainEvent.seedDedup ids :: MainEvent.createHttpClient ::
        ((configs.map fun c =>
            MainEvent.networkRequest ("get_user " ++ c.username)) ++
          (configs.map fun c =>
            MainEvent.networkRequest ("recent scores and downloads " ++
              c.username)))

/-- C6: for every rate-limiter tracker state, `hit_rate_limit` is true iff the
period has not yet elapsed (`seconds_until_reset` positive) and the recorded
count has reached capacity; a freshly created tracker (count zero) reports
false at any query time. -/
theorem C6_hit_rate_limit_iff (t : RatelimitTracker) (now : ℚ) :
    (t.hit_rate_limit now = true ↔
      0 < t.seconds_until_reset now ∧
        t.rate_limit.requests_per_period ≤ t.requests_made_in_period) ∧
    (∀ t0 t1 : ℚ, (freshTracker t0).hit_rate_limit t1 = false) := by
  constructor
  · unfold RatelimitTracker.hit_rate_limit
    by_cases h : t.seconds_until_reset now ≤ 0
    · have h0 : ¬ 0 < t.seconds_until_reset now := not_lt.mpr h
      simp [h, h0]
    · have h0 : 0 < t.seconds_until_reset now := lt_of_not_le h
      simp [h, h0]
  · intro t0 t1
    unfold RatelimitTracker.hit_rate_limit freshTracker OSU_API_V2_RATE_LIMIT
    by_cases h : ((⟨⟨500, 60⟩, t0, 0⟩ : RatelimitTracker).seconds_until_reset t1 ≤ 0)
    · simp [h]
    · simp [h]

/-- Helper: the rate-limiting block records a request exactly when the
effective window (the incoming tracker, or a fresh one if it was `None`) is
neither saturated nor elapsed. -/
theorem rateLimitSection_recorded_iff (st : Option RatelimitTracker) (now : ℚ) :
    (rateLimitSection st now).recorded = true ↔
      ((st.getD (freshTracker now)).hit_rate_limit now = false ∧
        0 < (st.getD (freshTracker now)).seconds_until_reset now) := by
  unfold rateLimitSection
  set t := st.getD (freshTracker now) with ht
  by_cases h1 : t.hit_rate_limit now
  · simp [h1]
  · by_cases h2 : t.seconds_until_reset now ≤ 0
    · simp [h1, h2, not_lt.mpr h2]
    · simp [h1, h2, lt_of_not_le h2]

/-- Helper: an unsaturated window inside its period has a count strictly below
capacity. -/
theorem hit_false_live_lt (t : RatelimitTracker) (now : ℚ)
    (h1 : t.hit_rate_limit now = false) (h2 : 0 < t.seconds_until_reset now) :
    t.requests_made_in_period < t.rate_limit.requests_per_period := by
  unfold RatelimitTracker.hit_rate_limit at h1
  rw [if_neg (not_le.mpr h2)] at h1
  rw [decide_eq_false_iff_not] at h1
  exact lt_of_not_le h1

/-- Helper: any tracker the rate-limiting block leaves behind has its count at
most capacity. -/
theorem rateLimitSection_tracker_le (st : Option RatelimitTracker) (now : ℚ)
    (t' : RatelimitTracker)
    (h : (rateLimitSection st now).tracker = some t') :
    t'.requests_made_in_period ≤ t'.rate_limit.requests_per_period := by
  unfold rateLimitSection at h
  set t := st.getD (freshTracker now) with ht
  by_cases h1 : t.hit_rate_limit now
  · simp [h1] at h
  · by_cases h2 : t.seconds_until_reset now ≤ 0
    · simp [h1, h2] at h
    · simp [h1, h2] at h
      have hlt := hit_false_live_lt t now (by simpa using h1) (lt_of_not_le h2)
      rw [← h]
      show t.requests_made_in_period + 1 ≤ t.rate_limit.requests_per_period
      omega

/-- Helper: every tracker state reachable through the gateway keeps its count
at most capacity. -/
theorem reachable_tracker_le (st : Option RatelimitTracker)
    (h : ReachableTracker st) :
    ∀ t, st = some t →
      t.requests_made_in_period ≤ t.rate_limit.requests_per_period := by
  induction h with
  | init => intro t hst; exact absurd hst (by simp)
  | step st' now h' ih => intro t hst; exact rateLimitSection_tracker_le st' now t hst
  | discard st' h' ih => intro t hst; exact absurd hst (by simp)

/-- C5: for all rate-limiter tracker states reachable through the gateway, the
recorded count never exceeds capacity; a request is recorded only when the
period has not elapsed and the count is strictly below capacity; and a
saturated window is only passed after waiting out the period and discarding
the window. -/
theorem C5_tracker_capacity_invariant (st : Option RatelimitTracker) (now : ℚ)
    (h : ReachableTracker st) :
    (∀ t, st = some t →
      t.requests_made_in_period ≤ t.rate_limit.requests_per_period) ∧
    ((rateLimitSection st now).recorded = true →
      0 < (st.getD (freshTracker now)).seconds_until_reset now ∧
        (st.getD (freshTracker now)).requests_made_in_period <
          (st.getD (freshTracker now)).rate_limit.requests_per_period) ∧
    ((st.getD (freshTracker now)).hit_rate_limit now = true →
      (rateLimitSection st now).waited = true ∧
        (rateLimitSection st now).tracker = none) := by
  refine ⟨reachable_tracker_le st h, ?_, ?_⟩
  · intro hrec
    have hiff := (rateLimitSection_recorded_iff st now).mp hrec
    exact ⟨hiff.2, hit_false_live_lt _ now hiff.1 hiff.2⟩
  · intro hhit
    unfold rateLimitSection
    simp [hhit]

/-- Witness for C5: instantiated at the initial `None` tracker and clock 0,
where the first call records into a fresh window with time remaining and a
count strictly below capacity. -/
theorem C5_witness :
    0 < ((none : Option RatelimitTracker).getD
        (freshTracker 0)).seconds_until_reset 0 ∧
      ((none : Option RatelimitTracker).getD
          (freshTracker 0)).requests_made_in_period <
        ((none : Option RatelimitTracker).getD
            (freshTracker 0)).rate_limit.requests_per_period :=
  (C5_tracker_capacity_invariant none 0 ReachableTracker.init).2.1 (by
    norm_num [rateLimitSection, freshTracker, OSU_API_V2_RATE_LIMIT,
      RatelimitTracker.hit_rate_limit, RatelimitTracker.seconds_until_reset])

/-- C1 counterexample: a gateway call that finds the window saturated (here a
full window of 500 requests, 30 seconds into the period, with a valid cached
token) issues the HTTP call without ever recording a request against the
limiter, so not every gateway call consumes quota. -/
theorem C1_counterexample :
    (⟨OSU_API_V2_RATE_LIMIT, 0, 500⟩ : RatelimitTracker).hit_rate_limit 30
        = true ∧
    (make_osu_api_v2_request (some ⟨"tok", 1000⟩)
          (some ⟨OSU_API_V2_RATE_LIMIT, 0, 500⟩) 0 0 30
          ⟨200, "x", 3600⟩ ⟨200, "body"⟩).events
        = [GwEvent.apiRequest "tok"] ∧
    GwEvent.recordRequest ∉
      (make_osu_api_v2_request (some ⟨"tok", 1000⟩)
          (some ⟨OSU_API_V2_RATE_LIMIT, 0, 500⟩) 0 0 30
          ⟨200, "x", 3600⟩ ⟨200, "body"⟩).events := by
  have h2 : (make_osu_api_v2_request (some ⟨"tok", 1000⟩)
        (some ⟨OSU_API_V2_RATE_LIMIT, 0, 500⟩) 0 0 30
        ⟨200, "x", 3600⟩ ⟨200, "body"⟩).events
      = [GwEvent.apiRequest "tok"] := by
    norm_num [make_osu_api_v2_request, authSection, is_expired, is2xx,
      rateLimitSection, RatelimitTracker.hit_rate_limit,
      RatelimitTracker.seconds_until_reset, OSU_API_V2_RATE_LIMIT, freshTracker]
  refine ⟨?_, h2, ?_⟩
  · norm_num [RatelimitTracker.hit_rate_limit,
      RatelimitTracker.seconds_until_reset, OSU_API_V2_RATE_LIMIT]
  · rw [h2]
    simp

/-- C1 amended: for every gateway call that passes the authorization stage, a
request is recorded against the limiter if and only if the effective window is
neither saturated nor elapsed; the API call is always the last event, and
whenever recording happens it happens before the API call is issued (so a
recorded request consumes quota regardless of the call's outcome), while
saturated or stale windows are passed without recording. -/
theorem C1_record_precedes_call_iff_live (auth : Option Authorization)
    (tracker : Option RatelimitTracker) (tCheck tResp tRate : ℚ)
    (exch : TokenResponse) (api : ApiResponse) (ex : Bool) (a : Authorization)
    (h : authSection auth tCheck tResp exch = (ex, Except.ok a)) :
    (GwEvent.recordRequest ∈
        (make_osu_api_v2_request auth tracker tCheck tResp tRate
            exch api).events ↔
      ((tracker.getD (freshTracker tRate)).hit_rate_limit tRate = false ∧
        0 < (tracker.getD (freshTracker tRate)).seconds_until_reset tRate)) ∧
    (∃ pre,
      (make_osu_api_v2_request auth tracker tCheck tResp tRate
          exch api).events = pre ++ [GwEvent.apiRequest a.api_token] ∧
      (GwEvent.recordRequest ∈
          (make_osu_api_v2_request auth tracker tCheck tResp tRate
              exch api).events →
        GwEvent.recordRequest ∈ pre)) := by
  have hm : make_osu_api_v2_request auth tracker tCheck tResp tRate exch api =
      { authorization := some a
        rate_limit_tracker := (rateLimitSection tracker tRate).tracker
        events :=
          (if ex then [GwEvent.tokenExchangeReq] else []) ++
            (if (rateLimitSection tracker tRate).recorded then
              [GwEvent.recordRequest] else []) ++
            [GwEvent.apiRequest a.api_token]
        result :=
          if is2xx api.status then Except.ok api.body
          else Except.error api.status } := by
    unfold make_osu_api_v2_request
    rw [h]
  have hiff := rateLimitSection_recorded_iff tracker tRate
  constructor
  · rw [← hiff, hm]
    by_cases hr : (rateLimitSection tracker tRate).recorded <;>
      by_cases hex : ex <;> simp [hr, hex]
  · refine ⟨(if ex then [GwEvent.tokenExchangeReq] else []) ++
      (if (rateLimitSection tracker tRate).recorded then
        [GwEvent.recordRequest] else []), ?_, ?_⟩
    · rw [hm]
    · rw [hm]
      by_cases hr : (rateLimitSection tracker tRate).recorded <;>
        by_cases hex : ex <;> simp [hr, hex]

/-- Witness for C1 amended: a live window (fresh tracker at clock 0) with a
valid cached token records the request, and the record precedes the API
call. -/
theorem C1_witness :
    GwEvent.recordRequest ∈
      (make_osu_api_v2_request (some ⟨"tok", 1000⟩) none 0 0 0
          ⟨200, "x", 3600⟩ ⟨200, "body"⟩).events :=
  (C1_record_precedes_call_iff_live (some ⟨"tok", 1000⟩) none 0 0 0
      ⟨200, "x", 3600⟩ ⟨200, "body"⟩ false ⟨"tok", 1000⟩
      (by norm_num [authSection, is_expired])).1.mpr
    (by
      norm_num [freshTracker, OSU_API_V2_RATE_LIMIT,
        RatelimitTracker.hit_rate_limit, RatelimitTracker.seconds_until_reset])

/-- C2 counterexample: a token exchange whose returned lifetime is 5 seconds
yields a freshly cached token whose stored expiry is only 5 seconds in the
future at the moment it is yielded, which the expiry policy itself already
counts as expired — refuting the claim that every freshly obtained token has
at least 20 seconds of validity at the moment it is yielded. -/
theorem C2_counterexample :
    (authSection none 0 0 ⟨200, "t", 5⟩).1 = true ∧
    (authSection none 0 0 ⟨200, "t", 5⟩).2 =
      Except.ok { api_token := "t", api_token_expiry := 5 } ∧
    is_expired { api_token := "t", api_token_expiry := 5 } 0 = true := by
  refine ⟨?_, ?_, ?_⟩ <;> norm_num [authSection, is2xx, is_expired]

/-- C2 amended: a token the auth stage yields from the cache (no exchange) has
at least 20 seconds until its stored expiry at the moment of the check; a
freshly exchanged token's stored expiry equals the response time plus the
returned lifetime, and is therefore at least 20 seconds in the future exactly
when the returned lifetime is at least 20 seconds. -/
theorem C2_token_freshness (auth : Option Authorization) (tCheck tResp : ℚ)
    (exch : TokenResponse) (ex : Bool) (a : Authorization)
    (h : authSection auth tCheck tResp exch = (ex, Except.ok a)) :
    (ex = false → 20 ≤ a.api_token_expiry - tCheck) ∧
    (ex = true → a.api_token_expiry = tResp + exch.expires_in ∧
      (20 ≤ exch.expires_in → 20 ≤ a.api_token_expiry - tResp)) := by
  unfold authSection at h
  cases auth with
  | some a0 =>
      by_cases hexp : is_expired a0 tCheck
      · dsimp only at h
        rw [if_pos hexp] at h
        dsimp only at h
        by_cases h2 : is2xx exch.status
        · rw [if_pos h2, Prod.mk.injEq] at h
          obtain ⟨hex, ha⟩ := h
          rw [Except.ok.injEq] at ha
          subst hex
          subst ha
          refine ⟨fun hf => by simp at hf, fun _ => ⟨rfl, fun h20 => ?_⟩⟩
          show (20 : ℚ) ≤ tResp + exch.expires_in - tResp
          linarith
        · rw [if_neg h2, Prod.mk.injEq] at h
          exact absurd h.2 (by simp)
      · dsimp only at h
        rw [if_neg hexp] at h
        dsimp only at h
        rw [Prod.mk.injEq] at h
        obtain ⟨hex, ha⟩ := h
        rw [Except.ok.injEq] at ha
        subst hex
        subst ha
        refine ⟨fun _ => ?_, fun ht => by simp at ht⟩
        have hb : is_expired a0 tCheck = false := Bool.eq_false_iff.mpr hexp
        unfold is_expired at hb
        rw [decide_eq_false_iff_not] at hb
        exact not_lt.mp hb
  | none =>
      dsimp only at h
      by_cases h2 : is2xx exch.status
      · rw [if_pos h2, Prod.mk.injEq] at h
        obtain ⟨hex, ha⟩ := h
        rw [Except.ok.injEq] at ha
        subst hex
        subst ha
        refine ⟨fun hf => by simp at hf, fun _ => ⟨rfl, fun h20 => ?_⟩⟩
        show (20 : ℚ) ≤ tResp + exch.expires_in - tResp
        linarith
      · rw [if_neg h2, Prod.mk.injEq] at h
        exact absurd h.2 (by simp)

/-- Witness for C2 amended: a cached token with expiry 100 reused at clock 0
has at least 20 seconds of validity at the moment of the check. -/
theorem C2_witness :
    (20 : ℚ) ≤ ({ api_token := "t", api_token_expiry := 100 } :
        Authorization).api_token_expiry - 0 :=
  (C2_token_freshness (some { api_token := "t", api_token_expiry := 100 }) 0 0
      ⟨200, "x", 3600⟩ false { api_token := "t", api_token_expiry := 100 }
      (by norm_num [authSection, is_expired])).1 rfl

/-- Helper: a lock holder that finds a cached token still valid at its check
performs no exchange and leaves the cache unchanged; a whole run of such
holders performs zero exchanges. -/
theorem runAuthTasks_valid_stable (a : Authorization) (rest : List AuthTask)
    (h : ∀ task ∈ rest, is_expired a task.tCheck = false) :
    runAuthTasks (some a) rest = (some a, 0) := by
  induction rest with
  | nil => rfl
  | cons task rest ih =>
      have hhead : is_expired a task.tCheck = false := h task (by simp)
      have htail := ih fun t ht => h t (by simp [ht])
      unfold runAuthTasks authSection
      simp [hhead, authAfter, htail]

/-- C3: when any number of lock-serialized gateway callers start from an
absent or expired cached authorization, exactly one token-exchange request is
performed, provided the first holder's exchange succeeds and every later
holder's expiry re-check happens within the refreshed token's validity window
(at least 20 seconds before its stored expiry). -/
theorem C3_single_exchange (auth : Option Authorization) (t0 : AuthTask)
    (rest : List AuthTask)
    (habs : auth = none ∨ ∃ a0, auth = some a0 ∧ is_expired a0 t0.tCheck = true)
    (h2xx : is2xx t0.exch.status = true)
    (hwin : ∀ task ∈ rest,
      is_expired
        { api_token := t0.exch.access_token
          api_token_expiry := t0.tResp + t0.exch.expires_in } task.tCheck
        = false) :
    (runAuthTasks auth (t0 :: rest)).2 = 1 := by
  have hsec : authSection auth t0.tCheck t0.tResp t0.exch =
      (true, Except.ok
        { api_token := t0.exch.access_token
          api_token_expiry := t0.tResp + t0.exch.expires_in }) := by
    unfold authSection
    rcases habs with hnone | ⟨a0, hsome, hexp⟩
    · subst hnone
      simp [h2xx]
    · subst hsome
      simp [hexp, h2xx]
  unfold runAuthTasks
  rw [hsec]
  dsimp only [authAfter]
  rw [runAuthTasks_valid_stable _ rest hwin]
  simp

/-- Witness for C3: two racing callers starting from an empty cache, the first
exchanging successfully for a day-long token, the second re-checking two
seconds later: one exchange in total. -/
theorem C3_witness :
    (runAuthTasks none [⟨0, 1, ⟨200, "tok", 86400⟩⟩, ⟨2, 2, ⟨200, "t2", 86400⟩⟩]).2
      = 1 :=
  C3_single_exchange none ⟨0, 1, ⟨200, "tok", 86400⟩⟩ [⟨2, 2, ⟨200, "t2", 86400⟩⟩]
    (Or.inl rfl) (by norm_num [is2xx])
    (by
      intro task htask
      simp only [List.mem_singleton] at htask
      subst htask
      norm_num [is_expired])

/-- C4: when the gateway reaches the token exchange (cached authorization
absent or expired at the check) and the exchange returns a non-2xx status, the
error propagates to the caller, the cached authorization is left absent, no
scoring-API request is issued by that call, and the rate-limiter tracker is
untouched (no request recorded). -/
theorem C4_exchange_failure_propagates (auth : Option Authorization)
    (tracker : Option RatelimitTracker) (tCheck tResp tRate : ℚ)
    (exch : TokenResponse) (api : ApiResponse)
    (hreach : auth = none ∨
      ∃ a0, auth = some a0 ∧ is_expired a0 tCheck = true)
    (hfail : is2xx exch.status = false) :
    (make_osu_api_v2_request auth tracker tCheck tResp tRate exch api).result
        = Except.error exch.status ∧
    (make_osu_api_v2_request auth tracker tCheck tResp tRate exch
        api).authorization = none ∧
    (∀ tok, GwEvent.apiRequest tok ∉
      (make_osu_api_v2_request auth tracker tCheck tResp tRate exch
          api).events) ∧
    GwEvent.recordRequest ∉
      (make_osu_api_v2_request auth tracker tCheck tResp tRate exch
          api).events ∧
    (make_osu_api_v2_request auth tracker tCheck tResp tRate exch
        api).rate_limit_tracker = tracker := by
  have hsec : authSection auth tCheck tResp exch =
      (true, Except.error exch.status) := by
    unfold authSection
    rcases hreach with hnone | ⟨a0, hsome, hexp⟩
    · subst hnone
      simp [hfail]
    · subst hsome
      simp [hexp, hfail]
  have hm : make_osu_api_v2_request auth tracker tCheck tResp tRate exch api =
      { authorization := none, rate_limit_tracker := tracker
        events := [GwEvent.tokenExchangeReq]
        result := Except.error exch.status } := by
    unfold make_osu_api_v2_request
    rw [hsec]
    rfl
  rw [hm]
  refine ⟨rfl, rfl, fun tok => ?_, ?_, rfl⟩ <;> simp

/-- Witness for C4: a call with an empty cache whose exchange returns 401
propagates the 401 and leaves no token cached. -/
theorem C4_witness :
    (make_osu_api_v2_request none none 0 0 0 ⟨401, "", 0⟩ ⟨200, "body"⟩).result
        = Except.error 401 ∧
    (make_osu_api_v2_request none none 0 0 0 ⟨401, "", 0⟩
        ⟨200, "body"⟩).authorization = none := by
  have h := C4_exchange_failure_propagates none none 0 0 0 ⟨401, "", 0⟩
    ⟨200, "body"⟩ (Or.inl rfl) (by norm_num [is2xx])
  exact ⟨h.1, h.2.1⟩

/-- Helper: `should_download` is the pure filter conjoined with the
not-already-downloaded check (definitional). -/
theorem should_download_eq_matches (s : Score) (c : Config) (d : List ℤ) :
    should_download s c d =
      (matchesFilter s c && !(d.contains s.beatmapset.id)) := rfl

/-- Helper: once an id is in the downloaded list, any further interleaved
dispatch steps keep it there and never create another download task for it
(the `should_download` membership check rejects it). -/
theorem runDispatch_downloaded_stable (id : ℤ) (steps : List (Score × Config))
    (state : List ℤ × List ℤ) (h : id ∈ state.1) :
    id ∈ (runDispatch steps state).1 ∧
      (runDispatch steps state).2.count id = state.2.count id := by
  induction steps generalizing state with
  | nil => exact ⟨h, rfl⟩
  | cons p rest ih =>
      unfold runDispatch processScore
      by_cases hd : should_download p.1 p.2 state.1
      · have hne : p.1.beatmapset.id ≠ id := by
          intro he
          rw [should_download_eq_matches] at hd
          have hc : state.1.contains p.1.beatmapset.id = true := by
            rw [he]
            simp [h]
          rw [hc] at hd
          simp at hd
        simp only [hd, if_true]
        have hrest := ih
          (state.1 ++ [p.1.beatmapset.id], state.2 ++ [p.1.beatmapset.id])
          (by simp [h])
        refine ⟨hrest.1, ?_⟩
        have hz : List.count id [p.1.beatmapset.id] = 0 :=
          List.count_eq_zero.mpr fun hmem => hne (List.mem_singleton.mp hmem).symm
        rw [hrest.2]
        dsimp only
        rw [List.count_append, hz]
        omega
      · simp only [hd, if_false]
        exact ih state h

/-- Helper: if every already-dispatched id is in the downloaded list, the same
holds after any sequence of dispatch steps (each dispatch appends the id to
both lists in the same atomic step). -/
theorem runDispatch_disp_subset (steps : List (Score × Config))
    (state : List ℤ × List ℤ) (h : ∀ x, x ∈ state.2 → x ∈ state.1) :
    ∀ x, x ∈ (runDispatch steps state).2 → x ∈ (runDispatch steps state).1 := by
  induction steps generalizing state with
  | nil => exact h
  | cons p rest ih =>
      unfold runDispatch processScore
      by_cases hd : should_download p.1 p.2 state.1
      · simp only [hd, if_true]
        refine ih _ fun x hx => ?_
        rcases List.mem_append.mp hx with hx1 | hx2
        · exact List.mem_append.mpr (Or.inl (h x hx1))
        · exact List.mem_append.mpr (Or.inr hx2)
      · simp only [hd, if_false]
        exact ih state h

/-- Helper: if the id is not yet downloaded and some step in the run carries a
score with that id passing the pure filter, the run dispatches exactly one
more download task for it than were already dispatched. -/
theorem runDispatch_first_match (id : ℤ) (steps : List (Score × Config))
    (state : List ℤ × List ℤ) (hnot : id ∉ state.1)
    (hex : ∃ p ∈ steps, p.1.beatmapset.id = id ∧ matchesFilter p.1 p.2 = true) :
    (runDispatch steps state).2.count id = state.2.count id + 1 := by
  induction steps generalizing state with
  | nil => simp at hex
  | cons p rest ih =>
      unfold runDispatch
      by_cases hp : p.1.beatmapset.id = id ∧ matchesFilter p.1 p.2 = true
      · obtain ⟨hpid, hpm⟩ := hp
        have hsd : should_download p.1 p.2 state.1 = true := by
          rw [should_download_eq_matches, hpm]
          have hc : state.1.contains p.1.beatmapset.id = false := by
            rw [hpid]
            simp [hnot]
          rw [hc]
          rfl
        unfold processScore
        simp only [hsd, if_true]
        have hrest := runDispatch_downloaded_stable id rest
          (state.1 ++ [p.1.beatmapset.id], state.2 ++ [p.1.beatmapset.id])
          (by simp [hpid])
        rw [hrest.2]
        simp [List.count_append, hpid]
      · obtain ⟨q, hq, hqs⟩ := hex
        rcases List.mem_cons.mp hq with heq | hqrest
        · exact absurd (heq ▸ hqs) hp
        unfold processScore
        by_cases hsd : should_download p.1 p.2 state.1
        · have hne : p.1.beatmapset.id ≠ id := by
            intro he
            rw [should_download_eq_matches] at hsd
            exact hp ⟨he, (Bool.and_eq_true _ _ |>.mp hsd).1⟩
          simp only [hsd, if_true]
          have hnot' : id ∉ state.1 ++ [p.1.beatmapset.id] := by
            intro hmem
            rcases List.mem_append.mp hmem with h1 | h2
            · exact hnot h1
            · exact hne (List.mem_singleton.mp h2).symm
          rw [ih
            (state.1 ++ [p.1.beatmapset.id], state.2 ++ [p.1.beatmapset.id])
            hnot' ⟨q, hqrest, hqs⟩]
          have hz : List.count id [p.1.beatmapset.id] = 0 :=
            List.count_eq_zero.mpr fun hmem =>
              hne (List.mem_singleton.mp hmem).symm
          dsimp only
          rw [List.count_append, hz]
        · simp only [hsd, if_false]
          exact ih state hnot ⟨q, hqrest, hqs⟩

/-- C7: over any interleaving of the accounts' dispatch loops (for instance two
accounts whose recent scores share the same matching id), if the id is not yet
downloaded at the start and at least one step carries a score with that id
passing the pure filter, then exactly one download task is dispatched for that
id over the whole run, and the id ends up in the downloaded list. -/
theorem C7_exactly_one_dispatch (steps : List (Score × Config)) (d0 : List ℤ)
    (id : ℤ) (hnot : id ∉ d0)
    (hex : ∃ p ∈ steps, p.1.beatmapset.id = id ∧ matchesFilter p.1 p.2 = true) :
    (runDispatch steps (d0, [])).2.count id = 1 ∧
      id ∈ (runDispatch steps (d0, [])).1 := by
  have hcount := runDispatch_first_match id steps (d0, []) hnot hex
  simp only [List.count_nil] at hcount
  refine ⟨hcount, ?_⟩
  refine runDispatch_disp_subset steps (d0, []) (by simp) id ?_
  rw [← List.count_pos_iff]
  omega

/-- Witness for C7: two accounts (mrekk's and Justice's configurations from
`hosts.py`) each see the same matching score on beatmapset 42; one task. -/
theorem C7_witness :
    (runDispatch
        [(⟨⟨"osu", 6, 4⟩, ⟨42⟩⟩, ⟨"mrekk", "osu", ⟨5, 13⟩, ⟨1, 10⟩⟩),
          (⟨⟨"osu", 6, 4⟩, ⟨42⟩⟩, ⟨"Justice", "osu", ⟨5, 10⟩, ⟨1, 10⟩⟩)]
        ([], [])).2.count 42 = 1 :=
  (C7_exactly_one_dispatch
      [(⟨⟨"osu", 6, 4⟩, ⟨42⟩⟩, ⟨"mrekk", "osu", ⟨5, 13⟩, ⟨1, 10⟩⟩),
        (⟨⟨"osu", 6, 4⟩, ⟨42⟩⟩, ⟨"Justice", "osu", ⟨5, 10⟩, ⟨1, 10⟩⟩)]
      [] 42 (by simp)
      ⟨(⟨⟨"osu", 6, 4⟩, ⟨42⟩⟩, ⟨"mrekk", "osu", ⟨5, 13⟩, ⟨1, 10⟩⟩),
        by simp, rfl, by norm_num [matchesFilter]⟩).1

/-- C10: a beatmapset id that was marked downloaded at dispatch stays in the
downloaded list across any later dispatch steps and is never dispatched again,
even though its download fails: `download_map` on a non-2xx mirror response
returns the error without touching the downloaded list (which it cannot even
reference), and no removal path exists. -/
theorem C10_failed_download_not_retried (id : ℤ)
    (steps : List (Score × Config)) (d disp : List ℤ) (resp : MirrorResponse)
    (hmem : id ∈ d) (hfail : is2xx resp.status = false) :
    download_map id resp = Except.error resp.status ∧
    id ∈ (runDispatch steps (d, disp)).1 ∧
    (runDispatch steps (d, disp)).2.count id = disp.count id := by
  have hstable := runDispatch_downloaded_stable id steps (d, disp) hmem
  refine ⟨?_, hstable.1, hstable.2⟩
  unfold download_map
  rw [hfail]
  rfl

/-- Witness for C10: beatmapset 7 was dispatched (marked downloaded), its
mirror download fails with 404, and a later step for the same id from another
account dispatches nothing. -/
theorem C10_witness :
    download_map 7 ⟨404, ""⟩ = Except.error 404 ∧
    (7 : ℤ) ∈ (runDispatch
        [(⟨⟨"osu", 6, 4⟩, ⟨7⟩⟩, ⟨"Justice", "osu", ⟨5, 10⟩, ⟨1, 10⟩⟩)]
        ([7], [7])).1 ∧
    (runDispatch
        [(⟨⟨"osu", 6, 4⟩, ⟨7⟩⟩, ⟨"Justice", "osu", ⟨5, 10⟩, ⟨1, 10⟩⟩)]
        ([7], [7])).2.count 7 = ([7] : List ℤ).count 7 :=
  C10_failed_download_not_retried 7
    [(⟨⟨"osu", 6, 4⟩, ⟨7⟩⟩, ⟨"Justice", "osu", ⟨5, 10⟩, ⟨1, 10⟩⟩)]
    [7] [7] ⟨404, ""⟩ (by simp) (by norm_num [is2xx])

/-- Helper: every directory entry whose parse succeeds contributes its id to a
successful seeding result. -/
theorem seed_mem (listing : List String) (path : String) (id : ℤ)
    (ids : List ℤ) (hpath : path ∈ listing)
    (hid : pyInt (removesuffix path ".osz") = some id)
    (hseed : get_currently_downloaded_beatmapsets listing = some ids) :
    id ∈ ids := by
  induction listing generalizing ids with
  | nil => simp at hpath
  | cons p rest ih =>
      unfold get_currently_downloaded_beatmapsets at hseed
      rcases List.mem_cons.mp hpath with rfl | hmem
      · rw [hid] at hseed
        cases hrec : get_currently_downloaded_beatmapsets rest with
        | none =>
            rw [hrec] at hseed
            simp at hseed
        | some is =>
            rw [hrec] at hseed
            simp only [Option.some.injEq] at hseed
            rw [← hseed]
            exact List.mem_cons_self id is
      · cases hp : pyInt (removesuffix p ".osz") with
        | none =>
            rw [hp] at hseed
            simp at hseed
        | some i =>
            rw [hp] at hseed
            cases hrec : get_currently_downloaded_beatmapsets rest with
            | none =>
                rw [hrec] at hseed
                simp at hseed
            | some is =>
                rw [hrec] at hseed
                simp only [Option.some.injEq] at hseed
                rw [← hseed]
                exact List.mem_cons_of_mem i (ih is hmem hrec)

/-- C8: every beatmapset identifier parsed from a file present in the output
directory at startup is reported as already downloaded by the deduplication
check (`contains`, as used by `should_download`, which then rejects any score
for it), and in the run's event trace every network event is preceded by the
seeding of the deduplication set (the set is seeded before the HTTP client
exists and before any request). -/
theorem C8_seed_before_network (listing : List String) (configs : List Config)
    (path : String) (id : ℤ) (ids : List ℤ)
    (hpath : path ∈ listing)
    (hid : pyInt (removesuffix path ".osz") = some id)
    (hseed : get_currently_downloaded_beatmapsets listing = some ids) :
    ids.contains id = true ∧
    (∀ s c, Beatmapset.id s.beatmapset = id → should_download s c ids = false) ∧
    (∀ l1 e l2, mainTrace listing configs = l1 ++ e :: l2 →
      MainEvent.isNetwork e = true → MainEvent.seedDedup ids ∈ l1) := by
  have hmemids : id ∈ ids := seed_mem listing path id ids hpath hid hseed
  refine ⟨by simp [hmemids], ?_, ?_⟩
  · intro s c hsid
    rw [should_download_eq_matches]
    have hc : ids.contains s.beatmapset.id = true := by
      rw [hsid]
      simp [hmemids]
    rw [hc]
    simp
  · intro l1 e l2 htrace hnet
    unfold mainTrace at htrace
    rw [hseed] at htrace
    cases l1 with
    | nil =>
        rw [List.nil_append] at htrace
        injection htrace with h1 h2
        rw [← h1] at hnet
        simp [MainEvent.isNetwork] at hnet
    | cons a l1' =>
        rw [List.cons_append] at htrace
        injection htrace with h1 h2
        rw [← h1]
        exact List.mem_cons_self _ _

/-- Witness for C8: the single file `42.osz` on disk seeds id 42, which the
deduplication check reports as downloaded. -/
theorem C8_witness : ([42] : List ℤ).contains 42 = true :=
  (C8_seed_before_network ["42.osz"] [] "42.osz" 42 [42] (by simp)
    (by decide) (by decide)).1

/-- C9 counterexample: a directory entry `123` is not a decimal integer
followed by the suffix `.osz` (it has no suffix at all), yet seeding does not
raise: `removesuffix` leaves it unchanged and `int("123")` succeeds, so the
run continues with 123 seeded. -/
theorem C9_counterexample :
    (".osz".data.isSuffixOf "123".data) = false ∧
    get_currently_downloaded_beatmapsets ["123"] = some [123] := by
  constructor
  · decide
  · decide

/-- C9 amended: startup seeding raises an error if and only if some directory
entry, after removing one trailing `.osz` suffix when present, fails Python's
base-10 integer parse (optionally signed, whitespace-trimmed digit run with
single underscores between digits); in particular a bare numeric name without
the `.osz` suffix is accepted rather than raising. -/
theorem C9_seed_error_iff (listing : List String) :
    get_currently_downloaded_beatmapsets listing = none ↔
      ∃ path ∈ listing, pyInt (removesuffix path ".osz") = none := by
  induction listing with
  | nil => simp [get_currently_downloaded_beatmapsets]
  | cons p rest ih =>
      unfold get_currently_downloaded_beatmapsets
      cases hp : pyInt (removesuffix p ".osz") with
      | none =>
          constructor
          · intro _
            exact ⟨p, List.mem_cons_self p rest, hp⟩
          · intro _
            rfl
      | some i =>
          cases hrec : get_currently_downloaded_beatmapsets rest with
          | none =>
              constructor
              · intro _
                obtain ⟨path, hpm, hpn⟩ := ih.mp hrec
                exact ⟨path, List.mem_cons_of_mem p hpm, hpn⟩
              · intro _
                rfl
          | some is =>
              constructor
              · intro hcontra
                exact absurd hcontra (by simp)
              · rintro ⟨path, hpm, hpn⟩
                rcases List.mem_cons.mp hpm with rfl | hmem
                · rw [hp] at hpn
                  exact absurd hpn (by simp)
                · have hn : get_currently_downloaded_beatmapsets rest = none :=
                    ih.mpr ⟨path, hmem, hpn⟩
                  rw [hn] at hrec
                  exact absurd hrec (by simp)

end Spectator
